import Mathlib

/-!
# Verification of the IELTS evaluation gRPC microservice

Shallow embedding of the three Python modules of the repository:

* `ielts/ielts_repository.py` — `ClaudeRepository`: builds a prompt from the
  six request fields, issues one HTTP POST to the Claude API, and maps the
  HTTP outcome to an `EvaluationResponseFromClaude` (or an unhandled fault).
* `ielts/ielts_service.py` — `IELTSService.EvaluateIELTS`: copies the six
  inbound fields into a `EvaluationRequestToClaude`, delegates to the
  repository, and echoes the six fields plus the evaluation into the reply.
* `server/python_server.py` — `Greeter.SayHello`, a second (stub)
  `IELTSService.EvaluateIELTS`, and the `serve` bootstrap that registers the
  handlers, binds port 50052 without TLS and starts a 10-worker pool.

The external HTTP transport (`requests.post`) is modelled as an oracle
function from the built `HttpRequest` to either a transport-level error or an
`HttpResponse`; Python exceptions that the code does not catch (transport
errors, `KeyError` on a missing JSON field, a type error when assigning a
non-string to the protobuf string field) are modelled by the `Except Fault`
result of the embedded functions.
-/

/-- A JSON value, as far as this program manipulates JSON: the outbound
request body built by the repository and the parsed response body
(`response.json()`). Objects are association lists of string keys. -/
inductive Json where
  | str (s : String)
  | num (n : Nat)
  | arr (elems : List Json)
  | obj (fields : List (String × Json))

/-- Subscripting a parsed JSON value by a string key, as Python's
`response.json()["content"]` does on a dict: returns the value when the
value is an object holding the key, and `none` when the key is absent (a
`KeyError` in Python) or the value is not an object (a `TypeError`). -/
def Json.lookup (j : Json) (key : String) : Option Json :=
  match j with
  | Json.obj fields => List.lookup key fields
  | _ => none

/-- The inbound RPC message: six flat text fields. -/
structure EvaluationRequest where
  passage : String
  question : String
  student_response : String
  complex_sentences : String
  advanced_vocabulary : String
  cohesive_devices : String

/-- The internal request object the handler builds for the repository
(`claude_pb2.EvaluationRequestToClaude`): the same six fields. -/
structure EvaluationRequestToClaude where
  passage : String
  question : String
  student_response : String
  complex_sentences : String
  advanced_vocabulary : String
  cohesive_devices : String

/-- The repository's result message (`claude_pb2.EvaluationResponseFromClaude`). -/
structure EvaluationResponseFromClaude where
  evaluation : String

/-- The outbound RPC reply (`EvaluationResponseFromToDataBase`): the six
echoed fields plus the evaluation text. -/
structure EvaluationResponseFromToDataBase where
  passage : String
  question : String
  student_response : String
  complex_sentences : String
  advanced_vocabulary : String
  cohesive_devices : String
  evaluation_from_claude : String

/-- The HTTP request handed to `requests.post`: method, URL, header list in
insertion order, and the JSON body passed via the `json=` keyword. -/
structure HttpRequest where
  method : String
  url : String
  headers : List (String × String)
  body : Json

/-- An HTTP response as the repository inspects it: the status code and the
parsed JSON body (`response.json()`). -/
structure HttpResponse where
  status_code : Nat
  body : Json

/-- A transport-level failure of the outbound HTTP call itself: the
exceptions `requests.post` can raise before any HTTP response exists. -/
inductive TransportError where
  | connectionRefused
  | timeout
  | dnsFailure

/-- The behaviour of the external network during one call: what
`requests.post` does when handed the built request. -/
def HttpOracle : Type := HttpRequest → Except TransportError HttpResponse

/-- An unhandled Python exception escaping the repository code: a transport
error from `requests.post` (not caught anywhere), a `KeyError` from the
`["content"]` subscript, or a `TypeError` when the extracted value is not a
string. -/
inductive Fault where
  | transport (e : TransportError)
  | keyError (key : String)
  | typeError

namespace ClaudeRepository

/-- `self.api_url`, set in `ClaudeRepository.__init__`. -/
def api_url : String := "https://api.anthropic.com/v1/messages"

/-- `self.api_key`, set in `ClaudeRepository.__init__`. -/
def api_key : String :=
  "sk-ant-REDACTED//"

/-- The apostrophe character, written via its code point so the literal
segments below can spell the source's word `student's`. -/
def apos : String := String.mk [Char.ofNat 39]

/-- Literal segment of the f-string template before `{request.passage}`. -/
def promptSeg1 : String :=
  "\n        Evaluate the following IELTS reading response:\n\n        Passage: "

/-- Literal segment between `{request.passage}` and `{request.question}`. -/
def promptSeg2 : String := "\n        Question: "

/-- Literal segment before `{request.student_response}`. -/
def promptSeg3 : String := "\n        Student Response: "

/-- Literal segment before `{request.complex_sentences}`. -/
def promptSeg4 : String :=
  "\n\n        Please consider the following aspects in your evaluation:\n        1. Complex Sentences: "

/-- Literal segment before `{request.advanced_vocabulary}`. -/
def promptSeg5 : String := "\n        2. Advanced Vocabulary: "

/-- Literal segment before `{request.cohesive_devices}`. -/
def promptSeg6 : String := "\n        3. Cohesive Devices: "

/-- Trailing literal segment of the template. -/
def promptSeg7 : String :=
  "\n\n        Provide a detailed evaluation of the student" ++ apos ++
  "s response, including strengths and areas for improvement.\n        "

/-- The f-string `prompt` of `ClaudeRepository.evaluate_ielts`: the fixed
template with the six request fields interpolated. -/
def buildPrompt (request : EvaluationRequestToClaude) : String :=
  promptSeg1 ++ request.passage ++ promptSeg2 ++ request.question ++ promptSeg3 ++
  request.student_response ++ promptSeg4 ++ request.complex_sentences ++ promptSeg5 ++
  request.advanced_vocabulary ++ promptSeg6 ++ request.cohesive_devices ++ promptSeg7

/-- The `headers` dict of `evaluate_ielts`, in insertion order. -/
def requestHeaders : List (String × String) :=
  [("Content-Type", "application/json"), ("X-API-Key", api_key)]

/-- The `data` dict of `evaluate_ielts`: model name, single user message
holding the prompt, and the token limit. -/
def requestData (request : EvaluationRequestToClaude) : Json :=
  Json.obj
    [("model", Json.str "claude-3-sonnet-20240229"),
     ("messages", Json.arr
        [Json.obj [("role", Json.str "user"),
                   ("content", Json.str (buildPrompt request))]]),
     ("max_tokens", Json.num 1000)]

/-- The single outbound call `requests.post(self.api_url, json=data,
headers=headers)` as the HTTP request it sends. -/
def buildHttpRequest (request : EvaluationRequestToClaude) : HttpRequest :=
  { method := "POST", url := api_url, headers := requestHeaders,
    body := requestData request }

/-- `ClaudeRepository.evaluate_ielts`: issue the POST, then on status 200
extract `response.json()["content"]` into the reply, on any other status
return the fixed error string. A transport error, a missing `content` key or
a non-string `content` value escape as unhandled faults. -/
def evaluate_ielts (http : HttpOracle) (request : EvaluationRequestToClaude) :
    Except Fault EvaluationResponseFromClaude :=
  match http (buildHttpRequest request) with
  | Except.error e => Except.error (Fault.transport e)
  | Except.ok response =>
    if response.status_code = 200 then
      match Json.lookup response.body "content" with
      | some (Json.str claude_evaluation) => Except.ok ⟨claude_evaluation⟩
      | some _ => Except.error Fault.typeError
      | none => Except.error (Fault.keyError "content")
    else
      Except.ok ⟨"Error: Unable to get evaluation from Claude."⟩

end ClaudeRepository

namespace Ielts

/-- The `claude_request` object built at the top of
`IELTSService.EvaluateIELTS` in `ielts_service.py`: all six inbound fields
copied unchanged. -/
def toClaudeRequest (request : EvaluationRequest) : EvaluationRequestToClaude :=
  { student_response := request.student_response
    passage := request.passage
    question := request.question
    complex_sentences := request.complex_sentences
    advanced_vocabulary := request.advanced_vocabulary
    cohesive_devices := request.cohesive_devices }

/-- `IELTSService.EvaluateIELTS` of `ielts_service.py`: build the claude
request, delegate to the repository, and assemble the reply from the six
original fields plus the evaluation. A fault raised inside the repository
propagates unhandled. -/
def IELTSService.EvaluateIELTS (http : HttpOracle) (request : EvaluationRequest) :
    Except Fault EvaluationResponseFromToDataBase :=
  match ClaudeRepository.evaluate_ielts http (toClaudeRequest request) with
  | Except.error e => Except.error e
  | Except.ok claude_response =>
      Except.ok
        { student_response := request.student_response
          passage := request.passage
          question := request.question
          complex_sentences := request.complex_sentences
          advanced_vocabulary := request.advanced_vocabulary
          cohesive_devices := request.cohesive_devices
          evaluation_from_claude := claude_response.evaluation }

end Ielts

namespace PythonServer

/-- `helloworld_pb2.HelloRequest`. -/
structure HelloRequest where
  name : String

/-- `helloworld_pb2.HelloReply`. -/
structure HelloReply where
  message : String

/-- `Greeter.SayHello` of `python_server.py`. -/
def Greeter.SayHello (request : HelloRequest) : HelloReply :=
  { message := "Hello, " ++ request.name ++ "!" }

/-- The `IELTSService.EvaluateIELTS` defined in `python_server.py` itself:
echoes the six fields and returns the stub evaluation text. It takes no
`HttpOracle`, reflecting that it performs no outbound call at all. -/
def IELTSService.EvaluateIELTS (request : EvaluationRequest) :
    EvaluationResponseFromToDataBase :=
  { student_response := request.student_response
    passage := request.passage
    question := request.question
    complex_sentences := request.complex_sentences
    advanced_vocabulary := request.advanced_vocabulary
    cohesive_devices := request.cohesive_devices
    evaluation_from_claude := "Evaluation not implemented yet." }

/-- The servicer classes of this repository that could be registered with
the gRPC server: the greeter, the stub `IELTSService` of
`server/python_server.py`, and the Claude-delegating `IELTSService` of
`ielts/ielts_service.py`. -/
inductive Servicer where
  | Greeter
  | ServerIELTSService
  | ClaudeIELTSService
  deriving DecidableEq

/-- The observable configuration of the gRPC server object built by
`serve`. -/
structure GrpcServer where
  max_workers : Nat
  servicers : List Servicer
  insecure_ports : List Nat
  started : Bool

/-- `grpc.server(futures.ThreadPoolExecutor(max_workers=...))`. -/
def grpc_server (max_workers : Nat) : GrpcServer :=
  { max_workers := max_workers, servicers := [], insecure_ports := [],
    started := false }

/-- `add_GreeterServicer_to_server` / `add_IELTSServicer_to_server`. -/
def add_servicer (s : Servicer) (server : GrpcServer) : GrpcServer :=
  { server with servicers := server.servicers ++ [s] }

/-- `server.add_insecure_port`: binds an unencrypted listener. -/
def add_insecure_port (port : Nat) (server : GrpcServer) : GrpcServer :=
  { server with insecure_ports := server.insecure_ports ++ [port] }

/-- `server.start()`. -/
def start (server : GrpcServer) : GrpcServer :=
  { server with started := true }

/-- The `serve` bootstrap of `python_server.py`: a 10-worker server,
`Greeter()` and the local `IELTSService()` registered, port 50052 bound
without TLS, then started (and held in `wait_for_termination`). -/
def serve : GrpcServer :=
  start (add_insecure_port 50052
    (add_servicer Servicer.ServerIELTSService
      (add_servicer Servicer.Greeter (grpc_server 10))))

end PythonServer

/-- The six echoed fields of a reply agree with the corresponding fields of
a request. -/
def echoes (resp : EvaluationResponseFromToDataBase)
    (request : EvaluationRequest) : Prop :=
  resp.passage = request.passage ∧
  resp.question = request.question ∧
  resp.student_response = request.student_response ∧
  resp.complex_sentences = request.complex_sentences ∧
  resp.advanced_vocabulary = request.advanced_vocabulary ∧
  resp.cohesive_devices = request.cohesive_devices

/-- The string `field` occurs verbatim inside the string `prompt`. -/
def occursIn (s prompt : String) : Prop := ∃ a b, prompt = a ++ s ++ b

/-- C10: `SayHello` replies with exactly the greeting built around the
request's name. -/
theorem sayHello_message (request : PythonServer.HelloRequest) :
    (PythonServer.Greeter.SayHello request).message =
      "Hello, " ++ request.name ++ "!" := rfl

/-- C8: the `serve` bootstrap builds a server with a worker pool of size 10,
exactly the port 50052 bound as an unencrypted listener, the greeter and the
local evaluation servicer both registered (in that order, before the start),
and the server running. -/
theorem serve_bootstrap :
    PythonServer.serve.max_workers = 10 ∧
    PythonServer.serve.insecure_ports = [50052] ∧
    PythonServer.serve.servicers =
      [PythonServer.Servicer.Greeter, PythonServer.Servicer.ServerIELTSService] ∧
    PythonServer.serve.started = true :=
  ⟨rfl, rfl, rfl, rfl⟩

/-- Sample request used by the concrete witnesses (the spec's test scenario). -/
def sampleRequest : EvaluationRequest :=
  { passage := "P", question := "Q", student_response := "R",
    complex_sentences := "yes", advanced_vocabulary := "no",
    cohesive_devices := "yes" }

/-- A successful external API answer with a `content` field. -/
def sampleHttpResponse : HttpResponse :=
  { status_code := 200, body := Json.obj [("content", Json.str "Good job.")] }

/-- A network that answers every request with `sampleHttpResponse`. -/
def sampleOracle : HttpOracle := fun _ => Except.ok sampleHttpResponse

/-- The reply the delegating handler produces for `sampleRequest` under
`sampleOracle`. -/
def sampleReply : EvaluationResponseFromToDataBase :=
  { passage := "P", question := "Q", student_response := "R",
    complex_sentences := "yes", advanced_vocabulary := "no",
    cohesive_devices := "yes", evaluation_from_claude := "Good job." }

/-- A network that answers every request with an HTTP 500 and an empty body. -/
def oracle500 : HttpOracle :=
  fun _ => Except.ok { status_code := 500, body := Json.obj [] }

/-- A network on which every connection is refused. -/
def refusedOracle : HttpOracle :=
  fun _ => Except.error TransportError.connectionRefused

/-- A network that answers HTTP 200 with a JSON body lacking `content`. -/
def emptyBodyOracle : HttpOracle :=
  fun _ => Except.ok { status_code := 200, body := Json.obj [] }

/-- A network that agrees with `sampleOracle` on the one URL this service
posts to but behaves differently elsewhere. -/
def altOracle : HttpOracle :=
  fun r => if r.url = "bogus" then Except.error TransportError.timeout
           else Except.ok sampleHttpResponse

/-- C1: whenever the delegating `EvaluateIELTS` handler returns a reply, its
six echoed fields equal the corresponding request fields, for every network
behaviour; and the stub handler registered by the server echoes them too. -/
theorem evaluateIELTS_echoes_request (http : HttpOracle)
    (request : EvaluationRequest) (resp : EvaluationResponseFromToDataBase)
    (h : Ielts.IELTSService.EvaluateIELTS http request = Except.ok resp) :
    echoes resp request ∧
    echoes (PythonServer.IELTSService.EvaluateIELTS request) request := by
  refine ⟨?_, rfl, rfl, rfl, rfl, rfl, rfl⟩
  unfold Ielts.IELTSService.EvaluateIELTS at h
  cases hrep : ClaudeRepository.evaluate_ielts http (Ielts.toClaudeRequest request) with
  | error e => rw [hrep] at h; exact absurd h (by simp)
  | ok claude_response =>
    rw [hrep] at h
    simp only [Except.ok.injEq] at h
    subst h
    exact ⟨rfl, rfl, rfl, rfl, rfl, rfl⟩

/-- Witness for C1 at the spec's sample request and a mocked 200 answer. -/
theorem evaluateIELTS_echoes_request_witness :
    echoes sampleReply sampleRequest ∧
    echoes (PythonServer.IELTSService.EvaluateIELTS sampleRequest) sampleRequest :=
  evaluateIELTS_echoes_request sampleOracle sampleRequest sampleReply rfl

/-- C2: when the network delivers an HTTP 200 whose JSON body maps
`content` to the string `x`, the repository returns exactly `x` as the
evaluation text. -/
theorem evaluate_ielts_returns_content_verbatim (http : HttpOracle)
    (request : EvaluationRequestToClaude) (response : HttpResponse) (x : String)
    (hcall : http (ClaudeRepository.buildHttpRequest request) = Except.ok response)
    (hstatus : response.status_code = 200)
    (hcontent : Json.lookup response.body "content" = some (Json.str x)) :
    ClaudeRepository.evaluate_ielts http request = Except.ok ⟨x⟩ := by
  unfold ClaudeRepository.evaluate_ielts
  rw [hcall]
  simp [hstatus, hcontent]

/-- Witness for C2 with the mocked `{content: "Good job."}` answer. -/
theorem evaluate_ielts_returns_content_verbatim_witness :
    ClaudeRepository.evaluate_ielts sampleOracle (Ielts.toClaudeRequest sampleRequest) =
      Except.ok ⟨"Good job."⟩ :=
  evaluate_ielts_returns_content_verbatim sampleOracle
    (Ielts.toClaudeRequest sampleRequest) sampleHttpResponse "Good job." rfl rfl rfl

/-- C3: on any non-200 status the repository returns the fixed error
literal, and the RPC handler still completes successfully, echoing the
request fields around that literal. -/
theorem non200_yields_fixed_error_and_rpc_succeeds (http : HttpOracle)
    (request : EvaluationRequest) (response : HttpResponse)
    (hcall : http (ClaudeRepository.buildHttpRequest (Ielts.toClaudeRequest request)) =
      Except.ok response)
    (hstatus : response.status_code ≠ 200) :
    ClaudeRepository.evaluate_ielts http (Ielts.toClaudeRequest request) =
      Except.ok ⟨"Error: Unable to get evaluation from Claude."⟩ ∧
    Ielts.IELTSService.EvaluateIELTS http request =
      Except.ok
        { passage := request.passage, question := request.question,
          student_response := request.student_response,
          complex_sentences := request.complex_sentences,
          advanced_vocabulary := request.advanced_vocabulary,
          cohesive_devices := request.cohesive_devices,
          evaluation_from_claude := "Error: Unable to get evaluation from Claude." } := by
  have hrep : ClaudeRepository.evaluate_ielts http (Ielts.toClaudeRequest request) =
      Except.ok ⟨"Error: Unable to get evaluation from Claude."⟩ := by
    unfold ClaudeRepository.evaluate_ielts
    rw [hcall]
    simp [hstatus]
  refine ⟨hrep, ?_⟩
  unfold Ielts.IELTSService.EvaluateIELTS
  rw [hrep]

/-- Witness for C3 with a mocked HTTP 500 answer. -/
theorem non200_yields_fixed_error_and_rpc_succeeds_witness :
    ClaudeRepository.evaluate_ielts oracle500 (Ielts.toClaudeRequest sampleRequest) =
      Except.ok ⟨"Error: Unable to get evaluation from Claude."⟩ ∧
    Ielts.IELTSService.EvaluateIELTS oracle500 sampleRequest =
      Except.ok
        { passage := "P", question := "Q", student_response := "R",
          complex_sentences := "yes", advanced_vocabulary := "no",
          cohesive_devices := "yes",
          evaluation_from_claude := "Error: Unable to get evaluation from Claude." } :=
  non200_yields_fixed_error_and_rpc_succeeds oracle500 sampleRequest
    { status_code := 500, body := Json.obj [] } rfl (by decide)

/-- C4: the evaluation handler the bootstrap registers is the stub defined
in `python_server.py` — it answers every request with the fixed text
`Evaluation not implemented yet.` and, taking no network oracle at all,
never contacts the external API — while the Claude-delegating servicer of
`ielts_service.py` is never registered. -/
theorem registered_handler_is_stub :
    (∀ request : EvaluationRequest,
      PythonServer.IELTSService.EvaluateIELTS request =
        { passage := request.passage, question := request.question,
          student_response := request.student_response,
          complex_sentences := request.complex_sentences,
          advanced_vocabulary := request.advanced_vocabulary,
          cohesive_devices := request.cohesive_devices,
          evaluation_from_claude := "Evaluation not implemented yet." }) ∧
    PythonServer.serve.servicers =
      [PythonServer.Servicer.Greeter, PythonServer.Servicer.ServerIELTSService] ∧
    PythonServer.Servicer.ClaudeIELTSService ∉ PythonServer.serve.servicers :=
  ⟨fun _ => rfl, rfl, by decide⟩

/-- C5: a transport-level failure of the outbound call is not caught: it
escapes the repository as a fault and makes the RPC handler itself fail
with that fault instead of returning a reply. -/
theorem transport_failure_propagates (http : HttpOracle)
    (request : EvaluationRequest) (e : TransportError)
    (hcall : http (ClaudeRepository.buildHttpRequest (Ielts.toClaudeRequest request)) =
      Except.error e) :
    ClaudeRepository.evaluate_ielts http (Ielts.toClaudeRequest request) =
      Except.error (Fault.transport e) ∧
    Ielts.IELTSService.EvaluateIELTS http request =
      Except.error (Fault.transport e) := by
  have hrep : ClaudeRepository.evaluate_ielts http (Ielts.toClaudeRequest request) =
      Except.error (Fault.transport e) := by
    unfold ClaudeRepository.evaluate_ielts
    rw [hcall]
  refine ⟨hrep, ?_⟩
  unfold Ielts.IELTSService.EvaluateIELTS
  rw [hrep]

/-- Witness for C5 with a mocked refused connection. -/
theorem transport_failure_propagates_witness :
    ClaudeRepository.evaluate_ielts refusedOracle (Ielts.toClaudeRequest sampleRequest) =
      Except.error (Fault.transport TransportError.connectionRefused) ∧
    Ielts.IELTSService.EvaluateIELTS refusedOracle sampleRequest =
      Except.error (Fault.transport TransportError.connectionRefused) :=
  transport_failure_propagates refusedOracle sampleRequest
    TransportError.connectionRefused rfl

/-- C6: an HTTP 200 whose JSON body lacks the `content` key is not handled:
extraction faults (the Python `KeyError`), and no fallback is returned. -/
theorem missing_content_field_faults (http : HttpOracle)
    (request : EvaluationRequestToClaude) (response : HttpResponse)
    (hcall : http (ClaudeRepository.buildHttpRequest request) = Except.ok response)
    (hstatus : response.status_code = 200)
    (hmissing : Json.lookup response.body "content" = none) :
    ClaudeRepository.evaluate_ielts http request =
      Except.error (Fault.keyError "content") := by
  unfold ClaudeRepository.evaluate_ielts
  rw [hcall]
  simp [hstatus, hmissing]

/-- Witness for C6 with a mocked 200 answer carrying an empty JSON object. -/
theorem missing_content_field_faults_witness :
    ClaudeRepository.evaluate_ielts emptyBodyOracle (Ielts.toClaudeRequest sampleRequest) =
      Except.error (Fault.keyError "content") :=
  missing_content_field_faults emptyBodyOracle (Ielts.toClaudeRequest sampleRequest)
    { status_code := 200, body := Json.obj [] } rfl rfl rfl

/-- C7: the one HTTP request the repository posts is a POST to the fixed
endpoint with exactly the two headers `Content-Type: application/json` and
`X-API-Key: <static credential>`, and a JSON body with exactly the fields
`model` (the fixed identifier), `messages` (one user message carrying the
prompt) and `max_tokens` (1000); the prompt embeds all six request fields
verbatim. -/
theorem outbound_request_shape (request : EvaluationRequestToClaude) :
    (ClaudeRepository.buildHttpRequest request).method = "POST" ∧
    (ClaudeRepository.buildHttpRequest request).url =
      "https://api.anthropic.com/v1/messages" ∧
    (ClaudeRepository.buildHttpRequest request).headers =
      [("Content-Type", "application/json"),
       ("X-API-Key", ClaudeRepository.api_key)] ∧
    (ClaudeRepository.buildHttpRequest request).body =
      Json.obj
        [("model", Json.str "claude-3-sonnet-20240229"),
         ("messages", Json.arr
            [Json.obj [("role", Json.str "user"),
                       ("content", Json.str (ClaudeRepository.buildPrompt request))]]),
         ("max_tokens", Json.num 1000)] ∧
    occursIn request.passage (ClaudeRepository.buildPrompt request) ∧
    occursIn request.question (ClaudeRepository.buildPrompt request) ∧
    occursIn request.student_response (ClaudeRepository.buildPrompt request) ∧
    occursIn request.complex_sentences (ClaudeRepository.buildPrompt request) ∧
    occursIn request.advanced_vocabulary (ClaudeRepository.buildPrompt request) ∧
    occursIn request.cohesive_devices (ClaudeRepository.buildPrompt request) := by
  refine ⟨rfl, rfl, rfl, rfl, ?_, ?_, ?_, ?_, ?_, ?_⟩
  · exact ⟨ClaudeRepository.promptSeg1,
      ClaudeRepository.promptSeg2 ++ request.question ++
        ClaudeRepository.promptSeg3 ++ request.student_response ++
        ClaudeRepository.promptSeg4 ++ request.complex_sentences ++
        ClaudeRepository.promptSeg5 ++ request.advanced_vocabulary ++
        ClaudeRepository.promptSeg6 ++ request.cohesive_devices ++
        ClaudeRepository.promptSeg7,
      by simp [ClaudeRepository.buildPrompt, String.append_assoc]⟩
  · exact ⟨ClaudeRepository.promptSeg1 ++ request.passage ++
        ClaudeRepository.promptSeg2,
      ClaudeRepository.promptSeg3 ++ request.student_response ++
        ClaudeRepository.promptSeg4 ++ request.complex_sentences ++
        ClaudeRepository.promptSeg5 ++ request.advanced_vocabulary ++
        ClaudeRepository.promptSeg6 ++ request.cohesive_devices ++
        ClaudeRepository.promptSeg7,
      by simp [ClaudeRepository.buildPrompt, String.append_assoc]⟩
  · exact ⟨ClaudeRepository.promptSeg1 ++ request.passage ++
        ClaudeRepository.promptSeg2 ++ request.question ++
        ClaudeRepository.promptSeg3,
      ClaudeRepository.promptSeg4 ++ request.complex_sentences ++
        ClaudeRepository.promptSeg5 ++ request.advanced_vocabulary ++
        ClaudeRepository.promptSeg6 ++ request.cohesive_devices ++
        ClaudeRepository.promptSeg7,
      by simp [ClaudeRepository.buildPrompt, String.append_assoc]⟩
  · exact ⟨ClaudeRepository.promptSeg1 ++ request.passage ++
        ClaudeRepository.promptSeg2 ++ request.question ++
        ClaudeRepository.promptSeg3 ++ request.student_response ++
        ClaudeRepository.promptSeg4,
      ClaudeRepository.promptSeg5 ++ request.advanced_vocabulary ++
        ClaudeRepository.promptSeg6 ++ request.cohesive_devices ++
        ClaudeRepository.promptSeg7,
      by simp [ClaudeRepository.buildPrompt, String.append_assoc]⟩
  · exact ⟨ClaudeRepository.promptSeg1 ++ request.passage ++
        ClaudeRepository.promptSeg2 ++ request.question ++
        ClaudeRepository.promptSeg3 ++ request.student_response ++
        ClaudeRepository.promptSeg4 ++ request.complex_sentences ++
        ClaudeRepository.promptSeg5,
      ClaudeRepository.promptSeg6 ++ request.cohesive_devices ++
        ClaudeRepository.promptSeg7,
      by simp [ClaudeRepository.buildPrompt, String.append_assoc]⟩
  · exact ⟨ClaudeRepository.promptSeg1 ++ request.passage ++
        ClaudeRepository.promptSeg2 ++ request.question ++
        ClaudeRepository.promptSeg3 ++ request.student_response ++
        ClaudeRepository.promptSeg4 ++ request.complex_sentences ++
        ClaudeRepository.promptSeg5 ++ request.advanced_vocabulary ++
        ClaudeRepository.promptSeg6,
      ClaudeRepository.promptSeg7,
      by simp [ClaudeRepository.buildPrompt, String.append_assoc]⟩

/-- C9: the reply of a call is determined solely by that call's own request
and the network's answer to that call's own outbound request: the handler
is a pure function, and two network behaviours that agree on the call's own
outbound request yield identical replies, so nothing from any other
concurrent call's input can reach this call's response. -/
theorem response_isolated_per_call (http http2 : HttpOracle)
    (request : EvaluationRequest)
    (h : http (ClaudeRepository.buildHttpRequest (Ielts.toClaudeRequest request)) =
         http2 (ClaudeRepository.buildHttpRequest (Ielts.toClaudeRequest request))) :
    Ielts.IELTSService.EvaluateIELTS http request =
      Ielts.IELTSService.EvaluateIELTS http2 request := by
  unfold Ielts.IELTSService.EvaluateIELTS ClaudeRepository.evaluate_ielts
  rw [h]

/-- Witness for C9: two networks that differ away from the service's
endpoint but agree on it give the same reply. -/
theorem response_isolated_per_call_witness :
    Ielts.IELTSService.EvaluateIELTS sampleOracle sampleRequest =
      Ielts.IELTSService.EvaluateIELTS altOracle sampleRequest :=
  response_isolated_per_call sampleOracle altOracle sampleRequest rfl
